import Mathlib

/-!
Shallow embedding of the LLM_QA_PROJECT repository (src/LLM_QA_CLI.py and
src/app.py) and proofs about its specified properties.

Strings are modelled through their character lists (`String.data`); Python's
`str.lower` is embedded as `Char.toLower` character-wise (both only move the
basic latin letters A-Z for the inputs at issue), Python's substring test
`needle in hay` as `pyContains`, Python slicing `s[:n]` as `pyTake`, and
`string.punctuation` as the four ASCII ranges it consists of.  Effectful
parts of `call_llm_api` are made explicit parameters: the credential read
from the environment is an `Option String` argument and the single network
round trip is an `ApiOutcome` oracle argument; a Python call that either
returns a string or raises an exception is embedded as a `PyResult`.
-/

/-- A chat message, as the dictionaries `{"role": ..., "content": ...}` built by
`build_prompt` in both source files. -/
structure Message where
  role : String
  content : String
deriving DecidableEq, Repr

/-- Python's `needle in hay` on strings (contiguous substring test), embedded on
character lists: `needle.isPrefixOf hay` or a match further right. -/
def listContainsSub : List Char → List Char → Bool
  | [], needle => needle.isPrefixOf []
  | c :: t, needle => needle.isPrefixOf (c :: t) || listContainsSub t needle

/-- Python's `needle in hay` for strings. -/
def pyContains (hay needle : String) : Bool :=
  listContainsSub hay.data needle.data

/-- Python's `s[:n]` slice (by code point, like Lean character lists). -/
def pyTake (s : String) (n : Nat) : String :=
  ⟨s.data.take n⟩

/-- Python's `s.lower()` character-wise (ASCII range, as `Char.toLower`). -/
def lowerStr (s : String) : String :=
  ⟨s.data.map Char.toLower⟩

/-- Membership in Python's `string.punctuation`
(`!"#$%&\x27()*+,-./:;<=>?@[\]^_\x60\x7b|\x7d~`): exactly the ASCII ranges
33-47, 58-64, 91-96 and 123-126. -/
def isPunct (c : Char) : Bool :=
  (33 ≤ c.toNat && c.toNat ≤ 47) || (58 ≤ c.toNat && c.toNat ≤ 64) ||
    (91 ≤ c.toNat && c.toNat ≤ 96) || (123 ≤ c.toNat && c.toNat ≤ 126)

/-- Python's `str.split()` (split on whitespace runs, dropping empty tokens),
embedded on character lists.  `acc` is the word currently being read. -/
def wordsAux : List Char → List Char → List (List Char)
  | [], acc => if acc = [] then [] else [acc]
  | c :: cs, acc =>
    if c.isWhitespace then
      if acc = [] then wordsAux cs [] else acc :: wordsAux cs []
    else
      wordsAux cs (acc ++ [c])

/-- Python's `' '.join(tokens)` embedded on character lists. -/
def joinWords : List (List Char) → List Char
  | [] => []
  | [w] => w
  | w :: ws => w ++ ' ' :: joinWords ws

/-- Constant `SYSTEM_PROMPT` of both source files (identical constant). -/
def SYSTEM_PROMPT : String :=
  "You are a helpful assistant. Provide concise answers and cite sources when possible."

/-- Embedding of `USER_PROMPT_ENHANCED.format(processed_question=q)`: the enhanced template
of both source files with the question substituted. -/
def userPromptEnhanced (q : String) : String :=
  "Please answer the following question concisely:\n\nQuestion: " ++ q ++
    "\n\nProvide a clear, factual answer. If applicable, cite reliable sources."

/-- Embedding of `preprocess_question` (identical in `LLM_QA_CLI.py` and `app.py`):
lowercase, strip `string.punctuation`, split on whitespace, rejoin with
single spaces. -/
def preprocess_question (question : String) : String :=
  let question_lower := lowerStr question
  let question_no_punct : String := ⟨question_lower.data.filter (fun c => !isPunct c)⟩
  let tokens := wordsAux question_no_punct.data []
  ⟨joinWords tokens⟩

/-- Embedding of `build_prompt` (identical in `LLM_QA_CLI.py` and `app.py`):
`USER_PROMPT_BASIC` is the bare `"{processed_question}"` template, so the
basic user content is exactly the processed question. -/
def build_prompt (processed_question : String) (use_enhanced : Bool) : List Message :=
  let user_content :=
    if use_enhanced then userPromptEnhanced processed_question else processed_question
  [⟨"system", SYSTEM_PROMPT⟩, ⟨"user", user_content⟩]

/-- Outcome of the one network round trip `client.chat.completions.create(...)`
(together with client construction) inside the `try` block of `call_llm_api`:
either the first choice's message content, or an exception with its Python
type name and its `str(e)` text. -/
inductive ApiOutcome where
  | success (text : String)
  | failure (excName : String) (excText : String)
deriving DecidableEq, Repr

/-- Result of a Python call: a returned string, or a raised exception
(type name, message). -/
inductive PyResult where
  | returned (s : String)
  | raised (excName : String) (msg : String)
deriving DecidableEq, Repr

/-- Whether a Python call returned normally (did not raise). -/
def PyResult.returnsNormally : PyResult → Bool
  | .returned _ => true
  | .raised _ _ => false

namespace CLI

/-- Embedding of `mock_llm_response` from `LLM_QA_CLI.py`: keyword-dispatched canned answers;
the generic branch echoes `question[:50]`. -/
def mock_llm_response (question : String) : String :=
  let question_lower := lowerStr question
  if pyContains question_lower "capital" || pyContains question_lower "city" then
    "Mock Response: The capital varies by country. For example, the capital of France is Paris."
  else if pyContains question_lower "python" || pyContains question_lower "code" then
    "Mock Response: Python is a high-level programming language known for readability and versatility."
  else if pyContains question_lower "weather" || pyContains question_lower "temperature" then
    "Mock Response: I cannot access real-time weather data. Please check a weather service."
  else
    "Mock Response: This is a simulated answer to your question about \x27" ++
      pyTake question 50 ++ "...\x27"

/-- Embedding of `call_llm_api` from `LLM_QA_CLI.py`.  `api_key` is `os.getenv("OPENAI_API_KEY")`
(`none` = unset); `net` is the outcome the network round trip would have.
On a missing or empty key this version RAISES `ValueError`. -/
def call_llm_api (messages : List Message) (use_mock : Bool)
    (api_key : Option String) (net : ApiOutcome) : PyResult :=
  if use_mock then
    match messages.getLast? with
    | some m => .returned (mock_llm_response m.content)
    | none => .raised "IndexError" "list index out of range"
  else if api_key.getD "" = "" then
    .raised "ValueError"
      "OPENAI_API_KEY not found. Please set it:\nexport OPENAI_API_KEY=\x27your-api-key-here\x27"
  else
    match net with
    | .success text => .returned text.trim
    | .failure excName excText =>
      if pyContains (lowerStr excText) "timeout" then
        .returned "Error: Request timed out. Please try again."
      else if pyContains (lowerStr excText) "rate_limit" then
        .returned "Error: Rate limit exceeded. Please wait a moment and try again."
      else if pyContains (lowerStr excText) "authentication" then
        .returned "Error: Invalid API key. Please check your OPENAI_API_KEY."
      else
        .returned ("Error (" ++ excName ++ "): " ++ excText)

end CLI

namespace App

/-- Embedding of `mock_llm_response` from `app.py`: same keyword branches as the CLI version,
but the generic branch is a FIXED string that does not echo the question. -/
def mock_llm_response (question : String) : String :=
  let question_lower := lowerStr question
  if pyContains question_lower "capital" || pyContains question_lower "city" then
    "Mock Response: The capital varies by country. For example, the capital of France is Paris."
  else if pyContains question_lower "python" || pyContains question_lower "code" then
    "Mock Response: Python is a high-level programming language known for readability and versatility."
  else if pyContains question_lower "weather" || pyContains question_lower "temperature" then
    "Mock Response: I cannot access real-time weather data. Please check a weather service."
  else
    "Mock Response: This is a simulated answer to your question."

/-- Embedding of `call_llm_api` from `app.py`.  On a missing or empty key this version RETURNS
an error string; the generic exception branch embeds only `str(e)`. -/
def call_llm_api (messages : List Message) (use_mock : Bool)
    (api_key : Option String) (net : ApiOutcome) : PyResult :=
  if use_mock then
    match messages.getLast? with
    | some m => .returned (mock_llm_response m.content)
    | none => .raised "IndexError" "list index out of range"
  else if api_key.getD "" = "" then
    .returned "⚠️ Error: OPENAI_API_KEY not found. Please set it in Streamlit secrets or environment variables."
  else
    match net with
    | .success text => .returned text.trim
    | .failure _ excText =>
      if pyContains (lowerStr excText) "timeout" then
        .returned "⚠️ Error: Request timed out. Please try again."
      else if pyContains (lowerStr excText) "rate_limit" then
        .returned "⚠️ Error: Rate limit exceeded. Please wait and try again."
      else if pyContains (lowerStr excText) "authentication" then
        .returned "⚠️ Error: Invalid API key."
      else
        .returned ("⚠️ Error: " ++ excText)

/-- One history entry, as the dictionary inserted by the `st.button("🚀 Get
Answer")` handler of `app.py`. -/
structure Turn where
  question : String
  processed : String
  answer : String
  timestamp : String
deriving DecidableEq, Repr

/-- The history mutation of `app.py`: `history.insert(0, turn)` followed by
`if len(history) > 5: history.pop()` (Python `pop()` removes the LAST item). -/
def push_history (history : List Turn) (t : Turn) : List Turn :=
  let h := t :: history
  if h.length > 5 then h.dropLast else h

/-- The history produced by a sequence of completed turns, oldest submitted
first, starting from the initial empty history. -/
def run_history (ts : List Turn) : List Turn :=
  ts.foldl push_history []

end App

/-! ### Helper lemmas about characters and substrings -/

/-- Converting a valid code point to a character and back is the identity. -/
theorem char_toNat_ofNat {n : Nat} (h : n.isValidChar) : (Char.ofNat n).toNat = n := by
  rw [Char.ofNat, dif_pos h]
  simp [Char.ofNatAux, Char.toNat, UInt32.toNat]

/-- Lowercasing leaves a character outside the basic latin uppercase range
unchanged. -/
theorem toLower_of_not_upper {c : Char} (h : ¬(65 ≤ c.toNat ∧ c.toNat ≤ 90)) :
    c.toLower = c := by
  rw [Char.toLower, if_neg h]

/-- Lowercasing shifts a basic latin uppercase code point by 32. -/
theorem toLower_toNat_of_upper {c : Char} (h : 65 ≤ c.toNat ∧ c.toNat ≤ 90) :
    c.toLower.toNat = c.toNat + 32 := by
  rw [Char.toLower, if_pos h]
  exact char_toNat_ofNat (Or.inl (by omega))

/-- Lowercasing characters is idempotent. -/
theorem toLower_toLower (c : Char) : c.toLower.toLower = c.toLower := by
  by_cases h : 65 ≤ c.toNat ∧ c.toNat ≤ 90
  · have h2 := toLower_toNat_of_upper h
    exact toLower_of_not_upper (by rw [h2]; omega)
  · rw [toLower_of_not_upper h, toLower_of_not_upper h]

/-- Lowercasing leaves punctuation characters unchanged. -/
theorem toLower_of_punct {c : Char} (h : isPunct c = true) : c.toLower = c := by
  apply toLower_of_not_upper
  simp only [isPunct, Bool.or_eq_true, Bool.and_eq_true, decide_eq_true_eq] at h
  omega

/-- Lowercasing leaves whitespace characters unchanged. -/
theorem toLower_of_ws {c : Char} (h : c.isWhitespace = true) : c.toLower = c := by
  simp only [Char.isWhitespace, Bool.or_eq_true, decide_eq_true_eq] at h
  rcases h with ((h | h) | h) | h <;> subst h <;> decide

/-- A list is a prefix of itself followed by anything, as a boolean test. -/
theorem isPrefixOf_append (a b : List Char) : a.isPrefixOf (a ++ b) = true :=
  List.isPrefixOf_iff_prefix.mpr (List.prefix_append a b)

/-- The embedded Python substring test succeeds on any boolean prefix. -/
theorem listContainsSub_of_isPrefixOf {hay needle : List Char}
    (h : needle.isPrefixOf hay = true) : listContainsSub hay needle = true := by
  cases hay with
  | nil => rw [listContainsSub]; exact h
  | cons c t => rw [listContainsSub, h, Bool.true_or]

/-- The embedded Python substring test finds a block surrounded by arbitrary
material. -/
theorem listContainsSub_append (pre mid suf : List Char) :
    listContainsSub (pre ++ (mid ++ suf)) mid = true := by
  induction pre with
  | nil =>
    rw [List.nil_append]
    exact listContainsSub_of_isPrefixOf (isPrefixOf_append mid suf)
  | cons c pre ih =>
    rw [List.cons_append, listContainsSub, ih, Bool.or_true]

/-- Mapping a function that fixes every member of a list is the identity. -/
theorem map_eq_self_of_fix {α : Type} {f : α → α} :
    ∀ l : List α, (∀ c ∈ l, f c = c) → l.map f = l := by
  intro l
  induction l with
  | nil => intro _; rfl
  | cons c t ih =>
    intro h
    rw [List.map_cons, h c (by simp), ih (fun d hd => h d (by simp [hd]))]

/-! ### Helper lemmas about whitespace splitting -/

/-- Reading a whitespace-free block extends the current word. -/
theorem wordsAux_append_nonWs :
    ∀ (w : List Char), (∀ c ∈ w, c.isWhitespace = false) →
      ∀ (rest acc : List Char), wordsAux (w ++ rest) acc = wordsAux rest (acc ++ w) := by
  intro w
  induction w with
  | nil => intro _ rest acc; simp
  | cons c w ih =>
    intro hw rest acc
    have hc : c.isWhitespace = false := hw c (by simp)
    rw [List.cons_append, wordsAux, hc]
    simp only [Bool.false_eq_true, if_false]
    rw [ih (fun d hd => hw d (by simp [hd])) rest (acc ++ [c]), List.append_assoc,
      List.singleton_append]

/-- Every token produced by the splitter is nonempty. -/
theorem wordsAux_ne_nil :
    ∀ (l acc : List Char), ∀ w ∈ wordsAux l acc, w ≠ [] := by
  intro l
  induction l with
  | nil =>
    intro acc w hw
    rw [wordsAux] at hw
    by_cases h : acc = []
    · rw [if_pos h] at hw; cases hw
    · rw [if_neg h] at hw
      rcases List.mem_singleton.mp hw with rfl
      exact h
  | cons c cs ih =>
    intro acc w hw
    rw [wordsAux] at hw
    by_cases hws : c.isWhitespace
    · rw [if_pos hws] at hw
      by_cases h : acc = []
      · rw [if_pos h] at hw; exact ih [] w hw
      · rw [if_neg h] at hw
        rcases List.mem_cons.mp hw with rfl | hw2
        · exact h
        · exact ih [] w hw2
    · rw [if_neg hws] at hw
      exact ih (acc ++ [c]) w hw

/-- Every character of every token produced by the splitter satisfies any
predicate holding on the pending word and on the non-whitespace input. -/
theorem wordsAux_chars (p : Char → Prop) :
    ∀ (l acc : List Char), (∀ c ∈ acc, p c) →
      (∀ c ∈ l, c.isWhitespace = false → p c) →
      ∀ w ∈ wordsAux l acc, ∀ c ∈ w, p c := by
  intro l
  induction l with
  | nil =>
    intro acc hacc _ w hw
    rw [wordsAux] at hw
    by_cases h : acc = []
    · rw [if_pos h] at hw; cases hw
    · rw [if_neg h] at hw
      rcases List.mem_singleton.mp hw with rfl
      exact hacc
  | cons c cs ih =>
    intro acc hacc hl w hw
    rw [wordsAux] at hw
    by_cases hws : c.isWhitespace
    · rw [if_pos hws] at hw
      by_cases h : acc = []
      · rw [if_pos h] at hw
        exact ih [] (by simp) (fun d hd hnw => hl d (by simp [hd]) hnw) w hw
      · rw [if_neg h] at hw
        rcases List.mem_cons.mp hw with rfl | hw2
        · exact hacc
        · exact ih [] (by simp) (fun d hd hnw => hl d (by simp [hd]) hnw) w hw2
    · rw [if_neg hws] at hw
      refine ih (acc ++ [c]) ?_ (fun d hd hnw => hl d (by simp [hd]) hnw) w hw
      intro d hd
      rcases List.mem_append.mp hd with hd1 | hd2
      · exact hacc d hd1
      · rcases List.mem_singleton.mp hd2 with rfl
        exact hl d (by simp) (by simpa using hws)

/-- Every character of a joined token list is a space or comes from a token. -/
theorem mem_joinWords {c : Char} :
    ∀ ws : List (List Char), c ∈ joinWords ws → c = ' ' ∨ ∃ w ∈ ws, c ∈ w := by
  intro ws
  induction ws with
  | nil => intro h; cases h
  | cons w tail ih =>
    cases tail with
    | nil =>
      intro h
      rw [joinWords] at h
      exact Or.inr ⟨w, by simp, h⟩
    | cons w2 t =>
      intro h
      simp only [joinWords] at h
      rcases List.mem_append.mp h with h1 | h2
      · exact Or.inr ⟨w, by simp, h1⟩
      · rcases List.mem_cons.mp h2 with rfl | h3
        · exact Or.inl rfl
        · rcases ih h3 with h4 | ⟨w3, hw3, hc3⟩
          · exact Or.inl h4
          · exact Or.inr ⟨w3, by simp [hw3], hc3⟩

/-- Splitting the space-joined image of nonempty whitespace-free tokens
recovers exactly those tokens. -/
theorem wordsAux_joinWords :
    ∀ ws : List (List Char),
      (∀ w ∈ ws, w ≠ [] ∧ ∀ c ∈ w, c.isWhitespace = false) →
      wordsAux (joinWords ws) [] = ws := by
  intro ws
  induction ws with
  | nil => rw [joinWords, wordsAux]; simp
  | cons w tail ih =>
    intro h
    have hw := h w (by simp)
    cases tail with
    | nil =>
      rw [joinWords]
      have h2 : wordsAux (w ++ []) [] = wordsAux [] ([] ++ w) :=
        wordsAux_append_nonWs w hw.2 [] []
      rw [List.append_nil] at h2
      rw [List.nil_append] at h2
      rw [h2, wordsAux, if_neg hw.1]
    | cons w2 t =>
      simp only [joinWords]
      rw [wordsAux_append_nonWs w hw.2 (' ' :: joinWords (w2 :: t)) []]
      rw [List.nil_append, wordsAux]
      have hsp : (' ' : Char).isWhitespace = true := by decide
      rw [hsp]
      simp only [if_true, if_neg hw.1]
      rw [ih (fun v hv => h v (by simp [hv]))]

/-- Splitting an all-whitespace list yields no tokens. -/
theorem wordsAux_all_ws :
    ∀ l : List Char, (∀ c ∈ l, c.isWhitespace = true) → wordsAux l [] = [] := by
  intro l
  induction l with
  | nil => intro _; rw [wordsAux]; simp
  | cons c cs ih =>
    intro h
    rw [wordsAux, h c (by simp)]
    simp only [if_true]
    exact ih (fun d hd => h d (by simp [hd]))

/-! ### Helper lemmas about the bounded history -/

/-- Pushing onto a history within bounds is truncation of the new head list
to five entries. -/
theorem push_history_eq_take (h : List App.Turn) (t : App.Turn) (hlen : h.length ≤ 5) :
    App.push_history h t = (t :: h).take 5 := by
  simp only [App.push_history]
  by_cases hc : (t :: h).length > 5
  · rw [if_pos hc, List.dropLast_eq_take]
    congr 1
    simp only [List.length_cons] at hc ⊢
    omega
  · rw [if_neg hc]
    refine (List.take_of_length_le ?_).symm
    simp only [List.length_cons] at hc ⊢
    omega

/-- Truncation to `n` absorbs an inner truncation of the appended tail. -/
theorem take_append_take_absorb {α : Type} (A B : List α) (n : Nat) :
    (A ++ B.take n).take n = (A ++ B).take n := by
  rw [List.take_append_eq_append_take, List.take_append_eq_append_take, List.take_take]
  have hmin : (n - A.length) ⊓ n = n - A.length := by omega
  rw [hmin]

/-- Folding history pushes over a turn sequence keeps the five most recent
turns, newest first. -/
theorem foldl_push_history (ts : List App.Turn) :
    ∀ h : List App.Turn, h.length ≤ 5 →
      List.foldl App.push_history h ts = (ts.reverse ++ h).take 5 := by
  induction ts with
  | nil =>
    intro h hl
    rw [List.foldl_nil, List.reverse_nil, List.nil_append, List.take_of_length_le hl]
  | cons t ts ih =>
    intro h hl
    rw [List.foldl_cons, push_history_eq_take h t hl]
    have hlen2 : ((t :: h).take 5).length ≤ 5 := by
      rw [List.length_take]; omega
    rw [ih _ hlen2, take_append_take_absorb, List.reverse_cons, List.append_assoc,
      List.singleton_append]

/-! ### Claim theorems -/

/-- C1 counterexample: with mock mode off and the credential unset, the CLI
version of `call_llm_api` raises `ValueError` instead of returning a
user-facing error string, so the claim that `call_llm_api` always returns
normally fails on `LLM_QA_CLI.py`. -/
theorem cli_missing_key_raises :
    CLI.call_llm_api [⟨"user", "hi"⟩] false none (ApiOutcome.success "ok") =
      PyResult.raised "ValueError"
        "OPENAI_API_KEY not found. Please set it:\nexport OPENAI_API_KEY=\x27your-api-key-here\x27" ∧
    (CLI.call_llm_api [⟨"user", "hi"⟩] false none (ApiOutcome.success "ok")).returnsNormally
      = false := by
  decide

/-- C1 (amended): with mock mode off and the credential unset or empty, the
graphical shell's `call_llm_api` (`app.py`) returns a fixed user-facing error
string immediately and never raises, while the CLI's `call_llm_api`
(`LLM_QA_CLI.py`) immediately raises `ValueError`; neither consults the
network (the result is independent of the network oracle). -/
theorem missing_key_no_network (messages : List Message) (api_key : Option String)
    (net net2 : ApiOutcome) (hkey : api_key.getD "" = "") :
    App.call_llm_api messages false api_key net =
      PyResult.returned "⚠️ Error: OPENAI_API_KEY not found. Please set it in Streamlit secrets or environment variables." ∧
    (App.call_llm_api messages false api_key net).returnsNormally = true ∧
    CLI.call_llm_api messages false api_key net =
      PyResult.raised "ValueError"
        "OPENAI_API_KEY not found. Please set it:\nexport OPENAI_API_KEY=\x27your-api-key-here\x27" ∧
    App.call_llm_api messages false api_key net = App.call_llm_api messages false api_key net2 ∧
    CLI.call_llm_api messages false api_key net = CLI.call_llm_api messages false api_key net2 := by
  refine ⟨?_, ?_, ?_, ?_, ?_⟩ <;>
    simp [App.call_llm_api, CLI.call_llm_api, hkey, PyResult.returnsNormally]

/-- C1 witness: the amended statement at a concrete message list, unset
credential and two different network oracles. -/
theorem missing_key_no_network_witness :
    App.call_llm_api [⟨"user", "hi"⟩] false none (ApiOutcome.success "ok") =
      PyResult.returned "⚠️ Error: OPENAI_API_KEY not found. Please set it in Streamlit secrets or environment variables." ∧
    (App.call_llm_api [⟨"user", "hi"⟩] false none (ApiOutcome.success "ok")).returnsNormally = true ∧
    CLI.call_llm_api [⟨"user", "hi"⟩] false none (ApiOutcome.success "ok") =
      PyResult.raised "ValueError"
        "OPENAI_API_KEY not found. Please set it:\nexport OPENAI_API_KEY=\x27your-api-key-here\x27" ∧
    App.call_llm_api [⟨"user", "hi"⟩] false none (ApiOutcome.success "ok") =
      App.call_llm_api [⟨"user", "hi"⟩] false none (ApiOutcome.failure "APIError" "boom") ∧
    CLI.call_llm_api [⟨"user", "hi"⟩] false none (ApiOutcome.success "ok") =
      CLI.call_llm_api [⟨"user", "hi"⟩] false none (ApiOutcome.failure "APIError" "boom") :=
  missing_key_no_network [⟨"user", "hi"⟩] none (ApiOutcome.success "ok")
    (ApiOutcome.failure "APIError" "boom") (by decide)

/-- C2: after each history mutation the history holds at most 5 turns and the
newest turn is first; insertion at capacity removes exactly the oldest (last)
entry; consequently, any sequence of completed turns leaves the five most
recent turns, newest first (pure FIFO at capacity). -/
theorem history_push_bounded_fifo :
    (∀ (h : List App.Turn) (t : App.Turn), h.length ≤ 5 →
      (App.push_history h t).length ≤ 5 ∧
      (App.push_history h t).head? = some t ∧
      (h.length = 5 → App.push_history h t = t :: h.dropLast)) ∧
    (∀ ts : List App.Turn, App.run_history ts = ts.reverse.take 5) := by
  constructor
  · intro h t hlen
    rw [push_history_eq_take h t hlen]
    have ht5 : (t :: h).take 5 = t :: h.take 4 := rfl
    refine ⟨?_, ?_, ?_⟩
    · rw [List.length_take]; omega
    · rw [ht5]; rfl
    · intro hcap
      rw [ht5, List.dropLast_eq_take, hcap]
  · intro ts
    rw [App.run_history, foldl_push_history ts [] (by simp), List.append_nil]

/-- C2 witness: pushing a sixth turn onto a full five-turn history. -/
theorem history_push_bounded_fifo_witness :
    (App.push_history
        [⟨"q5", "p5", "a5", "t5"⟩, ⟨"q4", "p4", "a4", "t4"⟩, ⟨"q3", "p3", "a3", "t3"⟩,
         ⟨"q2", "p2", "a2", "t2"⟩, ⟨"q1", "p1", "a1", "t1"⟩]
        ⟨"q6", "p6", "a6", "t6"⟩).length ≤ 5 ∧
    (App.push_history
        [⟨"q5", "p5", "a5", "t5"⟩, ⟨"q4", "p4", "a4", "t4"⟩, ⟨"q3", "p3", "a3", "t3"⟩,
         ⟨"q2", "p2", "a2", "t2"⟩, ⟨"q1", "p1", "a1", "t1"⟩]
        ⟨"q6", "p6", "a6", "t6"⟩).head? = some ⟨"q6", "p6", "a6", "t6"⟩ ∧
    App.push_history
        [⟨"q5", "p5", "a5", "t5"⟩, ⟨"q4", "p4", "a4", "t4"⟩, ⟨"q3", "p3", "a3", "t3"⟩,
         ⟨"q2", "p2", "a2", "t2"⟩, ⟨"q1", "p1", "a1", "t1"⟩]
        ⟨"q6", "p6", "a6", "t6"⟩ =
      ⟨"q6", "p6", "a6", "t6"⟩ ::
        [⟨"q5", "p5", "a5", "t5"⟩, ⟨"q4", "p4", "a4", "t4"⟩, ⟨"q3", "p3", "a3", "t3"⟩,
         ⟨"q2", "p2", "a2", "t2"⟩, ⟨"q1", "p1", "a1", "t1"⟩].dropLast := by
  have h := history_push_bounded_fifo.1
    [⟨"q5", "p5", "a5", "t5"⟩, ⟨"q4", "p4", "a4", "t4"⟩, ⟨"q3", "p3", "a3", "t3"⟩,
     ⟨"q2", "p2", "a2", "t2"⟩, ⟨"q1", "p1", "a1", "t1"⟩] ⟨"q6", "p6", "a6", "t6"⟩ (by decide)
  exact ⟨h.1, h.2.1, h.2.2 (by decide)⟩

/-- C4: any remote failure whose `str(e)` text contains "timeout"
case-insensitively anywhere is answered with the timeout-specific error
message by both versions of `call_llm_api`, regardless of the exception's
type name. -/
theorem timeout_text_classified (messages : List Message) (k excName excText : String)
    (hk : k ≠ "") (ht : pyContains (lowerStr excText) "timeout" = true) :
    CLI.call_llm_api messages false (some k) (ApiOutcome.failure excName excText) =
      PyResult.returned "Error: Request timed out. Please try again." ∧
    App.call_llm_api messages false (some k) (ApiOutcome.failure excName excText) =
      PyResult.returned "⚠️ Error: Request timed out. Please try again." := by
  constructor <;> simp [CLI.call_llm_api, App.call_llm_api, hk, ht]

/-- C4 witness: a failure text containing "Timeout" in mixed case, under an
exception type name that is not a timeout type. -/
theorem timeout_text_classified_witness :
    CLI.call_llm_api [⟨"user", "hi"⟩] false (some "sk-123")
        (ApiOutcome.failure "APIStatusError" "Connection Timeout after 30s") =
      PyResult.returned "Error: Request timed out. Please try again." ∧
    App.call_llm_api [⟨"user", "hi"⟩] false (some "sk-123")
        (ApiOutcome.failure "APIStatusError" "Connection Timeout after 30s") =
      PyResult.returned "⚠️ Error: Request timed out. Please try again." :=
  timeout_text_classified [⟨"user", "hi"⟩] "sk-123" "APIStatusError"
    "Connection Timeout after 30s" (by decide) (by decide)

/-- C9: the failure translator applies its substring checks in the fixed order
timeout, then rate_limit, then authentication, then the generic bucket, in
both versions of `call_llm_api`: a description matching several keywords gets
the message of the earliest keyword in that order. -/
theorem error_translator_order (messages : List Message) (k excName excText : String)
    (hk : k ≠ "") :
    (pyContains (lowerStr excText) "timeout" = true →
      CLI.call_llm_api messages false (some k) (ApiOutcome.failure excName excText) =
        PyResult.returned "Error: Request timed out. Please try again." ∧
      App.call_llm_api messages false (some k) (ApiOutcome.failure excName excText) =
        PyResult.returned "⚠️ Error: Request timed out. Please try again.") ∧
    (pyContains (lowerStr excText) "timeout" = false →
      pyContains (lowerStr excText) "rate_limit" = true →
      CLI.call_llm_api messages false (some k) (ApiOutcome.failure excName excText) =
        PyResult.returned "Error: Rate limit exceeded. Please wait a moment and try again." ∧
      App.call_llm_api messages false (some k) (ApiOutcome.failure excName excText) =
        PyResult.returned "⚠️ Error: Rate limit exceeded. Please wait and try again.") ∧
    (pyContains (lowerStr excText) "timeout" = false →
      pyContains (lowerStr excText) "rate_limit" = false →
      pyContains (lowerStr excText) "authentication" = true →
      CLI.call_llm_api messages false (some k) (ApiOutcome.failure excName excText) =
        PyResult.returned "Error: Invalid API key. Please check your OPENAI_API_KEY." ∧
      App.call_llm_api messages false (some k) (ApiOutcome.failure excName excText) =
        PyResult.returned "⚠️ Error: Invalid API key.") ∧
    (pyContains (lowerStr excText) "timeout" = false →
      pyContains (lowerStr excText) "rate_limit" = false →
      pyContains (lowerStr excText) "authentication" = false →
      CLI.call_llm_api messages false (some k) (ApiOutcome.failure excName excText) =
        PyResult.returned ("Error (" ++ excName ++ "): " ++ excText) ∧
      App.call_llm_api messages false (some k) (ApiOutcome.failure excName excText) =
        PyResult.returned ("⚠️ Error: " ++ excText)) := by
  refine ⟨fun h1 => ?_, fun h1 h2 => ?_, fun h1 h2 h3 => ?_, fun h1 h2 h3 => ?_⟩
  · constructor <;> simp [CLI.call_llm_api, App.call_llm_api, hk, h1]
  · constructor <;> simp [CLI.call_llm_api, App.call_llm_api, hk, h1, h2]
  · constructor <;> simp [CLI.call_llm_api, App.call_llm_api, hk, h1, h2, h3]
  · constructor <;> simp [CLI.call_llm_api, App.call_llm_api, hk, h1, h2, h3]

/-- C9 witness: a description containing both "authentication" and "timeout"
gets the timeout message, and one containing both "rate_limit" and
"authentication" (but no "timeout") gets the rate-limit message. -/
theorem error_translator_order_witness :
    (CLI.call_llm_api [⟨"user", "hi"⟩] false (some "sk")
        (ApiOutcome.failure "E" "Authentication failed: timeout") =
      PyResult.returned "Error: Request timed out. Please try again." ∧
     App.call_llm_api [⟨"user", "hi"⟩] false (some "sk")
        (ApiOutcome.failure "E" "Authentication failed: timeout") =
      PyResult.returned "⚠️ Error: Request timed out. Please try again.") ∧
    (CLI.call_llm_api [⟨"user", "hi"⟩] false (some "sk")
        (ApiOutcome.failure "E" "rate_limit during authentication") =
      PyResult.returned "Error: Rate limit exceeded. Please wait a moment and try again." ∧
     App.call_llm_api [⟨"user", "hi"⟩] false (some "sk")
        (ApiOutcome.failure "E" "rate_limit during authentication") =
      PyResult.returned "⚠️ Error: Rate limit exceeded. Please wait and try again.") :=
  ⟨(error_translator_order [⟨"user", "hi"⟩] "sk" "E" "Authentication failed: timeout"
      (by decide)).1 (by decide),
   (error_translator_order [⟨"user", "hi"⟩] "sk" "E" "rate_limit during authentication"
      (by decide)).2.1 (by decide) (by decide)⟩

/-- C10: with mock mode on, `call_llm_api` returns the mock response for the
last message's content and reads neither the credential nor the network: the
result is identical across any two credentials and network oracles, in both
versions. -/
theorem mock_mode_credential_independent :
    (∀ (messages : List Message) (k₁ k₂ : Option String) (n₁ n₂ : ApiOutcome),
      CLI.call_llm_api messages true k₁ n₁ = CLI.call_llm_api messages true k₂ n₂ ∧
      App.call_llm_api messages true k₁ n₁ = App.call_llm_api messages true k₂ n₂) ∧
    (∀ (messages : List Message) (m : Message) (k : Option String) (n : ApiOutcome),
      messages.getLast? = some m →
      CLI.call_llm_api messages true k n = PyResult.returned (CLI.mock_llm_response m.content) ∧
      App.call_llm_api messages true k n = PyResult.returned (App.mock_llm_response m.content)) := by
  constructor
  · intro messages k₁ k₂ n₁ n₂
    constructor <;> simp [CLI.call_llm_api, App.call_llm_api]
  · intro messages m k n hm
    constructor <;> simp [CLI.call_llm_api, App.call_llm_api, hm]

/-- C10 witness: mock mode with an unset credential answers from the mock
responder for the last message. -/
theorem mock_mode_credential_independent_witness :
    CLI.call_llm_api [⟨"system", "s"⟩, ⟨"user", "what is the capital of france"⟩] true none
        (ApiOutcome.success "x") =
      PyResult.returned (CLI.mock_llm_response "what is the capital of france") ∧
    App.call_llm_api [⟨"system", "s"⟩, ⟨"user", "what is the capital of france"⟩] true none
        (ApiOutcome.success "x") =
      PyResult.returned (App.mock_llm_response "what is the capital of france") :=
  mock_mode_credential_independent.2
    [⟨"system", "s"⟩, ⟨"user", "what is the capital of france"⟩]
    ⟨"user", "what is the capital of france"⟩ none (ApiOutcome.success "x") (by decide)

/-- C5: the mock responder (a pure, hence deterministic, function) evaluates
its keyword rules on the lowercased input in fixed precedence order with the
first match winning: "capital"/"city", then "python"/"code", then
"weather"/"temperature", then the generic branch; in particular any input
containing both "capital" and "python" takes the geography branch.  Both
source files share these branches. -/
theorem mock_keyword_precedence (q : String) :
    ((pyContains (lowerStr q) "capital" || pyContains (lowerStr q) "city") = true →
      CLI.mock_llm_response q =
        "Mock Response: The capital varies by country. For example, the capital of France is Paris." ∧
      App.mock_llm_response q =
        "Mock Response: The capital varies by country. For example, the capital of France is Paris.") ∧
    ((pyContains (lowerStr q) "capital" || pyContains (lowerStr q) "city") = false →
      (pyContains (lowerStr q) "python" || pyContains (lowerStr q) "code") = true →
      CLI.mock_llm_response q =
        "Mock Response: Python is a high-level programming language known for readability and versatility." ∧
      App.mock_llm_response q =
        "Mock Response: Python is a high-level programming language known for readability and versatility.") ∧
    ((pyContains (lowerStr q) "capital" || pyContains (lowerStr q) "city") = false →
      (pyContains (lowerStr q) "python" || pyContains (lowerStr q) "code") = false →
      (pyContains (lowerStr q) "weather" || pyContains (lowerStr q) "temperature") = true →
      CLI.mock_llm_response q =
        "Mock Response: I cannot access real-time weather data. Please check a weather service." ∧
      App.mock_llm_response q =
        "Mock Response: I cannot access real-time weather data. Please check a weather service.") ∧
    (pyContains (lowerStr q) "capital" = true → pyContains (lowerStr q) "python" = true →
      CLI.mock_llm_response q =
        "Mock Response: The capital varies by country. For example, the capital of France is Paris." ∧
      App.mock_llm_response q =
        "Mock Response: The capital varies by country. For example, the capital of France is Paris.") := by
  refine ⟨fun h1 => ?_, fun h1 h2 => ?_, fun h1 h2 h3 => ?_, fun hcap hpy => ?_⟩
  · constructor <;> simp [CLI.mock_llm_response, App.mock_llm_response, h1]
  · constructor <;> simp [CLI.mock_llm_response, App.mock_llm_response, h1, h2]
  · constructor <;> simp [CLI.mock_llm_response, App.mock_llm_response, h1, h2, h3]
  · constructor <;> simp [CLI.mock_llm_response, App.mock_llm_response, hcap]

/-- C5 witness: an input containing both "capital" and "python" takes the
geography branch in both responders. -/
theorem mock_keyword_precedence_witness :
    CLI.mock_llm_response "Capital of Python land?" =
      "Mock Response: The capital varies by country. For example, the capital of France is Paris." ∧
    App.mock_llm_response "Capital of Python land?" =
      "Mock Response: The capital varies by country. For example, the capital of France is Paris." :=
  (mock_keyword_precedence "Capital of Python land?").2.2.2 (by decide) (by decide)

/-- C6: `build_prompt(x, basic)` returns exactly two messages; the second is
the user message whose content equals `x` exactly; the first is the system
message, whose content is the fixed constant `SYSTEM_PROMPT` in both the
basic and the enhanced mode. -/
theorem build_prompt_basic_shape (x : String) :
    (build_prompt x false).length = 2 ∧
    (build_prompt x false).getLast? = some ⟨"user", x⟩ ∧
    (build_prompt x false).head? = some ⟨"system", SYSTEM_PROMPT⟩ ∧
    (build_prompt x true).head? = some ⟨"system", SYSTEM_PROMPT⟩ :=
  ⟨rfl, rfl, rfl, rfl⟩

/-- C7: `build_prompt(x, enhanced)` yields a second message whose content is
the enhanced template around `x`: it contains `x` as a substring and is
strictly longer than `x`. -/
theorem build_prompt_enhanced_embeds (x : String) :
    ((build_prompt x true).getLast?).map Message.content = some (userPromptEnhanced x) ∧
    pyContains (userPromptEnhanced x) x = true ∧
    x.length < (userPromptEnhanced x).length := by
  refine ⟨rfl, ?_, ?_⟩
  · rw [userPromptEnhanced, pyContains, String.data_append, String.data_append,
      List.append_assoc]
    exact listContainsSub_append _ _ _
  · rw [userPromptEnhanced, String.length_append, String.length_append]
    have h1 : 0 <
        ("Please answer the following question concisely:\n\nQuestion: " : String).length := by
      decide
    omega

/-- C8 counterexample: the input "zzz" matches no keyword rule, yet the
graphical shell's mock responder (`app.py`) returns a fixed string that does
not contain the (3-character, hence un-truncated) input, so the generic
branch does not echo the question there. -/
theorem app_mock_generic_no_echo :
    (pyContains (lowerStr "zzz") "capital" || pyContains (lowerStr "zzz") "city") = false ∧
    (pyContains (lowerStr "zzz") "python" || pyContains (lowerStr "zzz") "code") = false ∧
    (pyContains (lowerStr "zzz") "weather" || pyContains (lowerStr "zzz") "temperature") = false ∧
    App.mock_llm_response "zzz" = "Mock Response: This is a simulated answer to your question." ∧
    pyContains (App.mock_llm_response "zzz") (pyTake "zzz" 50) = false := by
  decide

/-- C8 (amended): on inputs matching no keyword rule, the CLI mock responder's
generic branch echoes the question truncated to its first 50 characters
inside its simulated-answer string (which therefore contains that prefix),
while the `app.py` generic branch returns a fixed simulated-answer string
that does not depend on the question. -/
theorem mock_generic_echo (q : String)
    (h1 : (pyContains (lowerStr q) "capital" || pyContains (lowerStr q) "city") = false)
    (h2 : (pyContains (lowerStr q) "python" || pyContains (lowerStr q) "code") = false)
    (h3 : (pyContains (lowerStr q) "weather" || pyContains (lowerStr q) "temperature") = false) :
    CLI.mock_llm_response q =
      "Mock Response: This is a simulated answer to your question about \x27" ++
        pyTake q 50 ++ "...\x27" ∧
    pyContains (CLI.mock_llm_response q) (pyTake q 50) = true ∧
    App.mock_llm_response q = "Mock Response: This is a simulated answer to your question." := by
  have hcli : CLI.mock_llm_response q =
      "Mock Response: This is a simulated answer to your question about \x27" ++
        pyTake q 50 ++ "...\x27" := by
    simp [CLI.mock_llm_response, h1, h2, h3]
  refine ⟨hcli, ?_, by simp [App.mock_llm_response, h1, h2, h3]⟩
  rw [hcli, pyContains, String.data_append, String.data_append, List.append_assoc]
  exact listContainsSub_append _ _ _

/-- C8 witness: the amended statement at a concrete keyword-free input. -/
theorem mock_generic_echo_witness :
    CLI.mock_llm_response "hello there" =
      "Mock Response: This is a simulated answer to your question about \x27" ++
        pyTake "hello there" 50 ++ "...\x27" ∧
    pyContains (CLI.mock_llm_response "hello there") (pyTake "hello there" 50) = true ∧
    App.mock_llm_response "hello there" =
      "Mock Response: This is a simulated answer to your question." :=
  mock_generic_echo "hello there" (by decide) (by decide) (by decide)

/-- Unfolding of the normalizer down to character lists. -/
theorem preprocess_data (s : String) :
    (preprocess_question s).data =
      joinWords (wordsAux ((s.data.map Char.toLower).filter (fun c => !isPunct c)) []) := rfl

/-- Core of normalizer idempotence: re-running lowercasing, punctuation
filtering and whitespace splitting on an already-processed character list is
the identity. -/
theorem processed_core (l2 : List Char)
    (h : ∀ c ∈ l2, Char.toLower c = c ∧ isPunct c = false) :
    joinWords (wordsAux (((joinWords (wordsAux l2 [])).map Char.toLower).filter
        (fun c => !isPunct c)) []) = joinWords (wordsAux l2 []) := by
  have htok : ∀ w ∈ wordsAux l2 [], ∀ c ∈ w,
      Char.toLower c = c ∧ isPunct c = false ∧ c.isWhitespace = false := by
    refine wordsAux_chars _ l2 [] (by simp) ?_
    intro c hc hnw
    exact ⟨(h c hc).1, (h c hc).2, hnw⟩
  have hne := wordsAux_ne_nil l2 []
  have houtc : ∀ c ∈ joinWords (wordsAux l2 []),
      Char.toLower c = c ∧ isPunct c = false := by
    intro c hc
    rcases mem_joinWords (wordsAux l2 []) hc with rfl | ⟨w, hw, hcw⟩
    · exact ⟨by decide, by decide⟩
    · exact ⟨(htok w hw c hcw).1, (htok w hw c hcw).2.1⟩
  rw [map_eq_self_of_fix _ (fun c hc => (houtc c hc).1)]
  rw [List.filter_eq_self.mpr (fun c hc => by simp [(houtc c hc).2])]
  rw [wordsAux_joinWords (wordsAux l2 [])
    (fun w hw => ⟨hne w hw, fun c hcw => (htok w hw c hcw).2.2⟩)]

/-- C3: the normalizer is a total function of its text input (the embedding is
a total Lean function, so no failure mode exists), it is idempotent, and
every input all of whose characters are whitespace or punctuation — in
particular the empty, whitespace-only and punctuation-only inputs — yields
the empty string. -/
theorem preprocess_idem_degenerate :
    (∀ s : String, preprocess_question (preprocess_question s) = preprocess_question s) ∧
    (∀ s : String, (∀ c ∈ s.data, c.isWhitespace = true ∨ isPunct c = true) →
      preprocess_question s = "") := by
  constructor
  · intro s
    apply String.ext
    rw [preprocess_data (preprocess_question s), preprocess_data s]
    refine processed_core ((s.data.map Char.toLower).filter (fun c => !isPunct c)) ?_
    intro c hc
    obtain ⟨hm, hp⟩ := List.mem_filter.mp hc
    obtain ⟨d, _, hd⟩ := List.mem_map.mp hm
    refine ⟨?_, by simpa using hp⟩
    rw [← hd]
    exact toLower_toLower d
  · intro s h
    apply String.ext
    rw [preprocess_data s]
    have h1 : ∀ c ∈ s.data.map Char.toLower, c.isWhitespace = true ∨ isPunct c = true := by
      intro c hc
      obtain ⟨d, hd, rfl⟩ := List.mem_map.mp hc
      rcases h d hd with hws | hpc
      · rw [toLower_of_ws hws]
        exact Or.inl hws
      · rw [toLower_of_punct hpc]
        exact Or.inr hpc
    have h2 : ∀ c ∈ (s.data.map Char.toLower).filter (fun c => !isPunct c),
        c.isWhitespace = true := by
      intro c hc
      obtain ⟨hm, hp⟩ := List.mem_filter.mp hc
      rcases h1 c hm with hws | hpc
      · exact hws
      · simp [hpc] at hp
    rw [wordsAux_all_ws _ h2]
    rfl

/-- C3 witness: idempotence on a concrete mixed-case punctuated input, and a
whitespace-and-punctuation-only input normalizing to the empty string. -/
theorem preprocess_idem_degenerate_witness :
    preprocess_question (preprocess_question "What IS the Capital, of France?") =
      preprocess_question "What IS the Capital, of France?" ∧
    preprocess_question "!? .,;" = "" :=
  ⟨preprocess_idem_degenerate.1 "What IS the Capital, of France?",
   preprocess_idem_degenerate.2 "!? .,;" (by decide)⟩
